import Mathlib

set_option maxHeartbeats 1000000

/-!
Shallow embedding of the tenant-scoped authentication and user-administration
subsystem of a multi-tenant hospital-management backend
(`src/backend/app/routers/auth.py` and `src/backend/app/routers/users.py`).

The relational datastore is modelled as explicit lists of rows; SQLAlchemy's
`select(...).scalars().first()` becomes `List.find?`, staged mutation plus
`commit` becomes functional record update, and `rollback` returns the
previously committed state.  The password-hashing primitive (`pwd_ctx.hash` /
`pwd_ctx.verify`) is a parameter, and the number of its invocations is
reported explicitly so that "the hash is never called on this path" is a
provable statement.
-/

/-- Python `str.lower()` (ASCII case folding, matching SQL `lower` on the
ASCII identifiers this system stores). -/
def strLower (s : String) : String :=
  String.mk (s.data.map Char.toLower)

/-- Python `str.strip()`: drop leading and trailing whitespace. -/
def strTrim (s : String) : String :=
  String.mk
    (((s.data.dropWhile Char.isWhitespace).reverse.dropWhile
      Char.isWhitespace).reverse)

/-- Python truthiness of an optional string: `if x:` is false exactly for
`None` and the empty string. -/
def truthy : Option String → Bool
  | none => false
  | some s => s != ""

/-- `str(x).strip() if x else None` on an optional string. -/
def pyStripOpt (x : Option String) : Option String :=
  if truthy x then some (strTrim (x.getD "")) else none

/-- Hospital row.  Modelled from the spec: `app/models.py` is not under
`src/`; fields follow spec §3 (internal numeric id, unique external
`hospital_id`, name, email, address, active flag).  The active flag is
tri-state — spec §4.1 step 3 treats an "unknown/null" flag as active and the
code tests `hospital.is_active is False` — hence `Option Bool`, defaulting to
unset at creation. -/
structure Hospital where
  id : Nat
  hospital_id : String
  name : String
  email : String
  address : Option String
  is_active : Option Bool
  deriving DecidableEq, Repr

/-- User row.  Modelled from the spec: `app/models.py` is not under `src/`;
fields follow spec §3 (internal id, owning hospital id, username, optional
email, password hash, role, full name, active/status flag, last-login
timestamp).  The status flag is a plain boolean per spec §3, and newly
created users default to active (spec §9: rows without an explicit flag
default to active). -/
structure User where
  id : Nat
  hospital_id : Nat
  username : String
  email : Option String
  password_hash : String
  role : String
  full_name : Option String
  status : Bool
  last_login : Option Nat
  deriving DecidableEq, Repr

/-- The structured `details` payload of a failed-login audit row:
`details = ... username ..., ... hospital_id ...` in `auth.py`. -/
structure AuditDetail where
  username : String
  hospital_id : String
  deriving DecidableEq, Repr

/-- AuditLog row.  Modelled from the spec: `app/models.py` is not under
`src/`; fields follow spec §3 (optional user reference, action tag, detail
payload, client IP). -/
structure AuditLog where
  user_id : Option Nat
  action : String
  details : Option AuditDetail
  ip_address : String
  deriving DecidableEq, Repr

/-- Session token claims.  Modelled from the spec: `app/dependencies.py` is
not under `src/`; per spec §3 the token carries user id, role and tenant
external id. -/
structure AccessToken where
  user_id : Nat
  role : String
  hospital_id : String
  deriving DecidableEq, Repr

/-- `create_access_token(user.id, user.role, norm_hosp_id)`; modelled from the
spec (`app/dependencies.py` is not under `src/`): it mints the signed claim
set. -/
def create_access_token (user_id : Nat) (role : String) (hospital_id : String) :
    AccessToken :=
  { user_id := user_id, role := role, hospital_id := hospital_id }

/-- The committed state of the relational datastore: the three tables plus
the sequences that assign internal numeric ids at flush/insert time. -/
structure DB where
  hospitals : List Hospital
  users : List User
  auditLogs : List AuditLog
  nextHospitalId : Nat
  nextUserId : Nat
  deriving DecidableEq, Repr

/-- `LoginRequest` body: `hospital_id`, `username`, `password`
(string fields per the schema; the handler re-applies `str(...)`). -/
structure LoginRequest where
  hospital_id : String
  username : String
  password : String
  deriving DecidableEq, Repr

/-- `TokenResponse` body returned by a successful login. -/
structure TokenResponse where
  access_token : AccessToken
  role : String
  full_name : Option String
  hospital_id : String
  deriving DecidableEq, Repr

/-- Result of `POST /auth/login`: either 200 with a `TokenResponse`, or the
single generic 401 used for every failure cause. -/
inductive LoginResult where
  | success (resp : TokenResponse)
  | invalidCredentials
  deriving DecidableEq, Repr

/-- Outcome of one login request: HTTP result, committed datastore, and how
many times the `pwd_ctx.verify` primitive ran. -/
structure LoginOutcome where
  result : LoginResult
  db : DB
  verifyCalls : Nat
  deriving DecidableEq, Repr

/-- `POST /auth/login` from `src/backend/app/routers/auth.py` (`login`).
`verify` is the `pwd_ctx.verify` primitive, `clientIp` is
`request.client.host`, `now` is `datetime.utcnow()`. -/
def login (db : DB) (payload : LoginRequest) (clientIp : String) (now : Nat)
    (verify : String → String → Bool) : LoginOutcome :=
  -- 1. Normalize frontend JSON inputs rigorously
  let norm_hosp_id := strTrim payload.hospital_id
  let norm_username := strLower (strTrim payload.username)
  let raw_password := payload.password
  -- Secure byte length validation (the isinstance check always passes:
  -- the schema field is a string)
  if raw_password.utf8ByteSize > 72 then
    { result := .invalidCredentials, db := db, verifyCalls := 0 }
  else
    -- 2. Verify hospital exists (case-insensitive match on the external id)
    match db.hospitals.find?
        (fun h => strLower h.hospital_id == strLower norm_hosp_id) with
    | none => { result := .invalidCredentials, db := db, verifyCalls := 0 }
    | some hospital =>
      -- Robust boolean check: only `is_active is False` blocks login
      if hospital.is_active == some false then
        { result := .invalidCredentials, db := db, verifyCalls := 0 }
      else
        -- 3. Find user within this hospital
        match db.users.find?
            (fun u => strLower u.username == norm_username &&
                      u.hospital_id == hospital.id) with
        | none =>
          -- 4. audit the failed attempt, commit, then 401
          { result := .invalidCredentials,
            db := { db with auditLogs := db.auditLogs ++
              [{ user_id := none, action := "LOGIN_FAILED",
                 details := some { username := norm_username,
                                   hospital_id := norm_hosp_id },
                 ip_address := clientIp }] },
            verifyCalls := 0 }
        | some user =>
          if user.status = false then
            -- short-circuit: `user.status is False` fails before verify runs
            { result := .invalidCredentials,
              db := { db with auditLogs := db.auditLogs ++
                [{ user_id := none, action := "LOGIN_FAILED",
                   details := some { username := norm_username,
                                     hospital_id := norm_hosp_id },
                   ip_address := clientIp }] },
              verifyCalls := 0 }
          else if verify raw_password user.password_hash = false then
            { result := .invalidCredentials,
              db := { db with auditLogs := db.auditLogs ++
                [{ user_id := none, action := "LOGIN_FAILED",
                   details := some { username := norm_username,
                                     hospital_id := norm_hosp_id },
                   ip_address := clientIp }] },
              verifyCalls := 1 }
          else
            -- 5./6. update last_login, audit success, commit both atomically
            let user' := { user with last_login := some now }
            { result := .success
                { access_token := create_access_token user.id user.role norm_hosp_id,
                  role := user.role,
                  full_name := user.full_name,
                  hospital_id := norm_hosp_id },
              db := { db with
                users := db.users.map (fun u => if u.id == user.id then user' else u),
                auditLogs := db.auditLogs ++
                  [{ user_id := some user.id, action := "LOGIN_SUCCESS",
                     details := none, ip_address := clientIp }] },
              verifyCalls := 1 }

/-- `HospitalCreate` body for `POST /auth/register-hospital`. -/
structure HospitalCreate where
  register_secret : String
  hospital_id : String
  name : String
  email : String
  address : Option String
  admin_username : String
  admin_password : String
  admin_full_name : Option String
  deriving DecidableEq, Repr

/-- Result of `POST /auth/register-hospital`: 201 created, 403 bad secret,
400 bad password, 409 duplicate/constraint conflict, 500 unexpected. -/
inductive RegisterResult where
  | created (message : String) (hospital_id : String)
  | forbidden
  | badRequest
  | conflict
  | serverError
  deriving DecidableEq, Repr

/-- How the external datastore behaves inside the handler's `try` block:
`ok` — every statement succeeds; `integrityError` — a uniqueness constraint
fires at flush/commit (`except IntegrityError`); `commitError` — some other
exception is raised at or before commit (`except Exception`);
`refreshError` — the commit succeeds but one of the two post-commit
`db.refresh` calls raises (also caught by `except Exception`). -/
inductive RegisterFate where
  | ok
  | integrityError
  | commitError
  | refreshError
  deriving DecidableEq, Repr

/-- Outcome of one registration request. -/
structure RegisterOutcome where
  result : RegisterResult
  db : DB
  deriving DecidableEq, Repr

/-- `POST /auth/register-hospital` from `src/backend/app/routers/auth.py`
(`register_hospital`).  `register_secret` is `settings.register_secret`,
`hash` is the `pwd_ctx.hash` primitive, and `fate` abstracts the datastore's
behaviour inside the `try` block.  A rollback discards everything staged
since the last commit, so in the two pre-commit failure arms the committed
state is the original `db`; after `refreshError` the rollback is a no-op
because both inserts were already committed. -/
def register_hospital (db : DB) (payload : HospitalCreate)
    (register_secret : String) (hash : String → String) (fate : RegisterFate) :
    RegisterOutcome :=
  -- Guard with bootstrap secret
  if payload.register_secret != register_secret then
    { result := .forbidden, db := db }
  else
    -- Normalize inputs for storing to align with login retrieval
    let norm_hosp_id := strTrim payload.hospital_id
    let norm_username := strLower (strTrim payload.admin_username)
    let raw_password := payload.admin_password
    -- the isinstance-str check always passes: the schema field is a string;
    -- validate length manually (bcrypt 72-byte limit)
    if raw_password.utf8ByteSize > 72 then
      { result := .badRequest, db := db }
    -- Check duplicate hospital_id
    else if (db.hospitals.find?
        (fun h => strLower h.hospital_id == strLower norm_hosp_id)).isSome then
      { result := .conflict, db := db }
    else
      -- the try block: hash, insert hospital, flush, insert admin, commit,
      -- refresh both rows
      let hashed_password := hash raw_password
      let hospital : Hospital :=
        { id := db.nextHospitalId,
          hospital_id := norm_hosp_id,
          name := strTrim payload.name,
          email := strLower (strTrim payload.email),
          address := pyStripOpt payload.address,
          is_active := none }
      let admin : User :=
        { id := db.nextUserId,
          hospital_id := hospital.id,
          username := norm_username,
          email := some (strLower (strTrim payload.email)),
          password_hash := hashed_password,
          role := "admin",
          full_name := some (if truthy payload.admin_full_name then
            strTrim (payload.admin_full_name.getD "") else "Administrator"),
          status := true,
          last_login := none }
      let committed : DB :=
        { db with
          hospitals := db.hospitals ++ [hospital],
          users := db.users ++ [admin],
          nextHospitalId := db.nextHospitalId + 1,
          nextUserId := db.nextUserId + 1 }
      match fate with
      | .integrityError => { result := .conflict, db := db }
      | .commitError => { result := .serverError, db := db }
      | .refreshError => { result := .serverError, db := committed }
      | .ok =>
        { result := .created
            ("Hospital " ++ norm_hosp_id ++ " registered successfully")
            norm_hosp_id,
          db := committed }

/-- `UserCreate` body for `POST /users/`.  There is no `hospital_id` field:
the handler never reads a tenant from the payload. -/
structure UserCreate where
  username : String
  email : Option String
  password : String
  role : String
  full_name : Option String
  deriving DecidableEq, Repr

/-- Result of `POST /users/`: 201 with the new row, or 400. -/
inductive CreateUserResult where
  | created (user : User)
  | invalidRole
  | passwordTooLong
  deriving DecidableEq, Repr

/-- Outcome of one user-creation request, with the number of `pwd_ctx.hash`
invocations. -/
structure CreateUserOutcome where
  result : CreateUserResult
  db : DB
  hashCalls : Nat
  deriving DecidableEq, Repr

/-- `POST /users/` from `src/backend/app/routers/users.py` (`create_user`).
`current_user` is the admin resolved by the `require_admin` dependency. -/
def create_user (db : DB) (payload : UserCreate) (current_user : User)
    (hash : String → String) : CreateUserOutcome :=
  if !(payload.role == "admin" || payload.role == "doctor" || payload.role == "staff") then
    { result := .invalidRole, db := db, hashCalls := 0 }
  else if payload.password.utf8ByteSize > 72 then
    -- byte length validation before any hashing (isinstance always passes)
    { result := .passwordTooLong, db := db, hashCalls := 0 }
  else
    let hashed_password := hash payload.password
    let user : User :=
      { id := db.nextUserId,
        hospital_id := current_user.hospital_id,
        username := strLower (strTrim payload.username),
        email := if truthy payload.email then
          some (strLower (strTrim (payload.email.getD ""))) else none,
        password_hash := hashed_password,
        role := payload.role,
        full_name := pyStripOpt payload.full_name,
        status := true,
        last_login := none }
    { result := .created user,
      db := { db with users := db.users ++ [user], nextUserId := db.nextUserId + 1 },
      hashCalls := 1 }

/-- `GET /users/` from `src/backend/app/routers/users.py` (`list_users`):
all users whose `hospital_id` equals the caller's. -/
def list_users (db : DB) (current_user : User) : List User :=
  db.users.filter (fun u => u.hospital_id == current_user.hospital_id)

/-- Result of `PATCH /users/.../toggle`: 200 with the updated row, or 404. -/
inductive ToggleResult where
  | ok (user : User)
  | notFound
  deriving DecidableEq, Repr

/-- Outcome of one toggle request. -/
structure ToggleOutcome where
  result : ToggleResult
  db : DB
  deriving DecidableEq, Repr

/-- `PATCH /users/{user_id}/toggle` from `src/backend/app/routers/users.py`
(`toggle_user_status`): locate the target by id and by the caller's hospital,
flip its status flag, commit. -/
def toggle_user_status (db : DB) (user_id : Nat) (current_user : User) :
    ToggleOutcome :=
  match db.users.find?
      (fun u => u.id == user_id && u.hospital_id == current_user.hospital_id) with
  | none => { result := .notFound, db := db }
  | some user =>
    let user' := { user with status := !user.status }
    { result := .ok user',
      db := { db with
        users := db.users.map (fun u => if u.id == user.id then user' else u) } }

/-! ## Concrete fixtures used by witnesses and counterexamples -/

/-- An empty datastore. -/
def emptyDB : DB where
  hospitals := []
  users := []
  auditLogs := []
  nextHospitalId := 1
  nextUserId := 1

/-- A placeholder hashing primitive for concrete scenarios. -/
def idHash : String → String := fun s => s

/-- A verify primitive consistent with `idHash`. -/
def eqVerify : String → String → Bool := fun p h => p == h

/-- A 73-byte password (73 ASCII characters). -/
def longPassword : String := String.mk (List.replicate 73 'a')

/-- An admin of hospital 1. -/
def adminH1 : User where
  id := 1
  hospital_id := 1
  username := "alice"
  email := none
  password_hash := "h"
  role := "admin"
  full_name := none
  status := true
  last_login := none

/-- A staff user of hospital 2 with user id 7. -/
def staffH2 : User where
  id := 7
  hospital_id := 2
  username := "bob"
  email := none
  password_hash := "h"
  role := "staff"
  full_name := none
  status := true
  last_login := none

/-- A datastore holding only `staffH2`. -/
def crossDB : DB where
  hospitals := []
  users := [staffH2]
  auditLogs := []
  nextHospitalId := 3
  nextUserId := 8

/-- A datastore holding `adminH1` and `staffH2` under their hospitals. -/
def twoTenantDB : DB where
  hospitals := []
  users := [adminH1, staffH2]
  auditLogs := []
  nextHospitalId := 3
  nextUserId := 8

/-- A generic user-creation payload. -/
def staffPayload : UserCreate where
  username := "u"
  email := none
  password := "p"
  role := "staff"
  full_name := none

/-- The user-creation payload with the oversized password. -/
def longPwUserPayload : UserCreate where
  username := "u"
  email := none
  password := longPassword
  role := "staff"
  full_name := none

/-- A login payload for tenant `h1`. -/
def loginH1 : LoginRequest where
  hospital_id := "h1"
  username := "admin"
  password := "pw"

/-- The login payload with the oversized password. -/
def longPwLogin : LoginRequest where
  hospital_id := "h1"
  username := "admin"
  password := longPassword

/-- The registration payload of the spec's normalization scenario:
hospital `"h1"`, admin username `"admin"`. -/
def regH1 : HospitalCreate where
  register_secret := "s"
  hospital_id := "h1"
  name := "General"
  email := "Admin@H1.example "
  address := none
  admin_username := "admin"
  admin_password := "pw"
  admin_full_name := none

/-- A second registration payload for the same tenant id in differing case. -/
def regH1Upper : HospitalCreate where
  register_secret := "s"
  hospital_id := " H1"
  name := "Other"
  email := "other@h1.example"
  address := none
  admin_username := "root"
  admin_password := "pw2"
  admin_full_name := none

/-- The login of the spec's normalization scenario: tenant `"H1 "` with a
trailing space, username `"Admin"` in differing case. -/
def loginH1Scenario : LoginRequest where
  hospital_id := "H1 "
  username := "Admin"
  password := "pw"

/-- An inactive hospital with external id `h9`. -/
def inactiveH9 : Hospital where
  id := 9
  hospital_id := "h9"
  name := "Closed"
  email := "c@x"
  address := none
  is_active := some false

/-- A user of the inactive hospital with correct credentials. -/
def userOfH9 : User where
  id := 5
  hospital_id := 9
  username := "carol"
  email := none
  password_hash := "pw"
  role := "doctor"
  full_name := none
  status := true
  last_login := none

/-- A datastore where tenant `h9` is explicitly inactive but its user's
credentials are correct. -/
def inactiveDB : DB where
  hospitals := [inactiveH9]
  users := [userOfH9]
  auditLogs := []
  nextHospitalId := 10
  nextUserId := 6

/-- The same tenant with the active flag left unset (`None`). -/
def nullActiveH9 : Hospital where
  id := 9
  hospital_id := "h9"
  name := "Open"
  email := "c@x"
  address := none
  is_active := none

/-- A datastore where tenant `h9` has a null active flag. -/
def nullActiveDB : DB where
  hospitals := [nullActiveH9]
  users := [userOfH9]
  auditLogs := []
  nextHospitalId := 10
  nextUserId := 6

/-- A login for tenant `h9` with `userOfH9`'s correct credentials. -/
def loginH9 : LoginRequest where
  hospital_id := "h9"
  username := "carol"
  password := "pw"

/-- A staff user of hospital 1 with user id 2. -/
def staffH1 : User where
  id := 2
  hospital_id := 1
  username := "dan"
  email := none
  password_hash := "h"
  role := "staff"
  full_name := none
  status := true
  last_login := none

/-- A datastore where `adminH1` and `staffH1` share hospital 1. -/
def sameTenantDB : DB where
  hospitals := []
  users := [adminH1, staffH1]
  auditLogs := []
  nextHospitalId := 2
  nextUserId := 3

/-- The LOGIN_FAILED audit row `login` writes for a failed attempt on
`payload` from `clientIp` (normalized username and tenant id as details). -/
def loginFailedLog (payload : LoginRequest) (clientIp : String) : AuditLog where
  user_id := none
  action := "LOGIN_FAILED"
  details := some { username := strLower (strTrim payload.username), hospital_id := strTrim payload.hospital_id }
  ip_address := clientIp

/-- The LOGIN_SUCCESS audit row `login` writes for user `uid` from
`clientIp`. -/
def loginSuccessLog (uid : Nat) (clientIp : String) : AuditLog where
  user_id := some uid
  action := "LOGIN_SUCCESS"
  details := none
  ip_address := clientIp

/-- The Hospital row `register_hospital` stages for payload `p` on `db`. -/
def regHospitalRow (db : DB) (p : HospitalCreate) : Hospital where
  id := db.nextHospitalId
  hospital_id := strTrim p.hospital_id
  name := strTrim p.name
  email := strLower (strTrim p.email)
  address := pyStripOpt p.address
  is_active := none

/-- The admin User row `register_hospital` stages for payload `p` on `db`. -/
def regAdminRow (db : DB) (p : HospitalCreate) (hash : String → String) : User where
  id := db.nextUserId
  hospital_id := db.nextHospitalId
  username := strLower (strTrim p.admin_username)
  email := some (strLower (strTrim p.email))
  password_hash := hash p.admin_password
  role := "admin"
  full_name := some (if truthy p.admin_full_name then strTrim (p.admin_full_name.getD "") else "Administrator")
  status := true
  last_login := none

/-- A login for tenant `h9` naming `userOfH9` with a wrong password. -/
def loginH9Wrong : LoginRequest where
  hospital_id := "h9"
  username := "carol"
  password := "nope"

/-! ## General lemmas about the embedding's primitives -/

theorem charToLower_idem (c : Char) : c.toLower.toLower = c.toLower := by
  unfold Char.toLower
  by_cases h : c.toNat ≥ 65 ∧ c.toNat ≤ 90
  · rw [if_pos h]
    have hv : (c.toNat + 32).isValidChar := Or.inl (by omega)
    have ht : (Char.ofNat (c.toNat + 32)).toNat = c.toNat + 32 := by
      unfold Char.ofNat
      rw [dif_pos hv]
      simp [Char.ofNatAux, Char.toNat, UInt32.toNat, UInt32.ofNat',
        BitVec.toNat_ofNatLt]
    rw [if_neg]
    rw [ht]
    omega
  · rw [if_neg h, if_neg h]

theorem strLower_idem (s : String) : strLower (strLower s) = strLower s := by
  unfold strLower
  simp only [List.map_map]
  congr 1
  exact List.map_congr_left (fun c _ => charToLower_idem c)

theorem map_members_id {α : Type} (l : List α) (f : α → α)
    (h : ∀ a ∈ l, f a = a) : l.map f = l := by
  conv_rhs => rw [← List.map_id l]
  exact List.map_congr_left h

theorem find?_eq_some_of_unique {α : Type} (p : α → Bool) {l : List α} {a : α}
    (ha : a ∈ l) (hpa : p a = true)
    (huniq : ∀ b ∈ l, p b = true → b = a) : l.find? p = some a := by
  induction l with
  | nil => cases ha
  | cons x xs ih =>
    by_cases hx : p x = true
    · have hxa : x = a := huniq x (List.mem_cons_self x xs) hx
      simp [List.find?, hx, hxa, hpa]
    · have hax : a ∈ xs := by
        rcases List.mem_cons.mp ha with h | h
        · exact absurd (h ▸ hpa) hx
        · exact h
      have : xs.find? p = some a :=
        ih hax (fun b hb hpb => huniq b (List.mem_cons_of_mem x hb) hpb)
      simpa [List.find?, hx] using this

theorem find?_append_of_none {α : Type} (p : α → Bool) {l₁ : List α}
    (l₂ : List α) (h : l₁.find? p = none) :
    (l₁ ++ l₂).find? p = l₂.find? p := by
  rw [List.find?_append, h]
  rfl

/-! ## C4: oversized passwords are rejected before hashing -/

/-- **C4.** For every password whose UTF-8 encoding exceeds 72 bytes, `login`
fails with the generic InvalidCredentials (401) error and `create_user` fails
with a BadRequest (400) result, in both cases with zero invocations of the
hash/verify primitive and the datastore untouched, so the hashing call is
unreachable on these inputs. -/
theorem C4_oversized_password_rejected_before_hashing
    (db db' : DB) (payload : LoginRequest) (upayload : UserCreate)
    (clientIp : String) (now : Nat) (verify : String → String → Bool)
    (current_user : User) (hash : String → String)
    (hlogin : payload.password.utf8ByteSize > 72)
    (hcreate : upayload.password.utf8ByteSize > 72) :
    ((login db payload clientIp now verify).result = .invalidCredentials ∧
     (login db payload clientIp now verify).verifyCalls = 0 ∧
     (login db payload clientIp now verify).db = db) ∧
    (((create_user db' upayload current_user hash).result = .invalidRole ∨
      (create_user db' upayload current_user hash).result = .passwordTooLong) ∧
     (create_user db' upayload current_user hash).hashCalls = 0 ∧
     (create_user db' upayload current_user hash).db = db') := by
  constructor
  · unfold login
    simp only [if_pos hlogin]
    exact ⟨trivial, trivial, trivial⟩
  · unfold create_user
    by_cases hrole : (!(upayload.role == "admin" || upayload.role == "doctor" ||
        upayload.role == "staff")) = true
    · simp only [if_pos hrole]
      exact ⟨Or.inl trivial, trivial, trivial⟩
    · simp only [if_neg hrole, if_pos hcreate]
      exact ⟨Or.inr trivial, trivial, trivial⟩

/-- Witness for C4 at a concrete 73-byte password. -/
theorem C4_witness :
    longPassword.utf8ByteSize > 72 ∧
    (login emptyDB longPwLogin "127.0.0.1" 0 eqVerify).verifyCalls = 0 ∧
    (create_user emptyDB longPwUserPayload adminH1 idHash).hashCalls = 0 := by
  have h : longPassword.utf8ByteSize > 72 := by decide
  have happ := C4_oversized_password_rejected_before_hashing
    emptyDB emptyDB longPwLogin longPwUserPayload "127.0.0.1" 0 eqVerify
    adminH1 idHash h h
  exact ⟨h, happ.1.2.1, happ.2.2.1⟩

/-! ## C2: user administration is scoped to the acting admin's hospital -/

/-- **C2.** Every user-administration operation is scoped to the acting
admin's hospital: `list_users` returns only users whose `hospital_id` equals
the caller's; `create_user` always sets the new user's `hospital_id` to the
caller's `hospital_id` (the payload carries no tenant field at all, so no
client-supplied value can reach it); and `toggle_user_status` on a user id
belonging to a different hospital fails NotFound with no state change. -/
theorem C2_admin_operations_tenant_scoped
    (db : DB) (current_user : User) (upayload : UserCreate)
    (hash : String → String) (target_id : Nat)
    (hcross : ∀ u ∈ db.users, u.id = target_id →
      u.hospital_id ≠ current_user.hospital_id) :
    (∀ u ∈ list_users db current_user,
      u.hospital_id = current_user.hospital_id) ∧
    (∀ u', (create_user db upayload current_user hash).result = .created u' →
      u'.hospital_id = current_user.hospital_id) ∧
    ((toggle_user_status db target_id current_user).result = .notFound ∧
     (toggle_user_status db target_id current_user).db = db) := by
  refine ⟨?_, ?_, ?_, ?_⟩
  · intro u hu
    have hm := List.mem_filter.mp hu
    exact beq_iff_eq.mp hm.2
  · intro u' h
    unfold create_user at h
    split at h
    · exact absurd h (by simp)
    · split at h
      · exact absurd h (by simp)
      · simp only [CreateUserResult.created.injEq] at h
        rw [← h]
  · have hfind : db.users.find?
        (fun u => u.id == target_id &&
          u.hospital_id == current_user.hospital_id) = none := by
      rw [List.find?_eq_none]
      intro u hu
      simp only [Bool.and_eq_true, beq_iff_eq, not_and]
      exact fun hid => hcross u hu hid
    unfold toggle_user_status
    simp only [hfind]
  · have hfind : db.users.find?
        (fun u => u.id == target_id &&
          u.hospital_id == current_user.hospital_id) = none := by
      rw [List.find?_eq_none]
      intro u hu
      simp only [Bool.and_eq_true, beq_iff_eq, not_and]
      exact fun hid => hcross u hu hid
    unfold toggle_user_status
    simp only [hfind]

/-- Witness for C2: an admin of hospital 1 cannot toggle user 7 of
hospital 2; the attempt is NotFound and the datastore is unchanged. -/
theorem C2_witness :
    (toggle_user_status crossDB 7 adminH1).result = .notFound ∧
    (toggle_user_status crossDB 7 adminH1).db = crossDB := by
  exact (C2_admin_operations_tenant_scoped crossDB adminH1 staffPayload
    idHash 7 (by decide)).2.2

/-! ## C5: explicitly inactive hospitals block login; null flags do not -/

/-- **C5.** If the hospital resolved by the login lookup has its active flag
explicitly set to false, login fails with the generic InvalidCredentials
error regardless of whether the username and password are correct (the
password verifier never even runs and the datastore is untouched); a
hospital whose active flag is null/unset is treated as active and does not
block login: with a matching active user and a correct password the login
succeeds. -/
theorem C5_inactive_hospital_blocks_login
    (db : DB) (payload : LoginRequest) (clientIp : String) (now : Nat)
    (verify : String → String → Bool) (h : Hospital)
    (hpw : ¬ payload.password.utf8ByteSize > 72)
    (hfind : db.hospitals.find?
      (fun x => strLower x.hospital_id ==
        strLower (strTrim payload.hospital_id)) = some h) :
    (h.is_active = some false →
      (login db payload clientIp now verify).result = .invalidCredentials ∧
      (login db payload clientIp now verify).verifyCalls = 0 ∧
      (login db payload clientIp now verify).db = db) ∧
    (h.is_active = none →
      ∀ u, db.users.find?
          (fun x => strLower x.username ==
            strLower (strTrim payload.username) &&
            x.hospital_id == h.id) = some u →
        u.status = true →
        verify payload.password u.password_hash = true →
        ∃ resp,
          (login db payload clientIp now verify).result = .success resp) := by
  constructor
  · intro hact
    unfold login
    rw [if_neg hpw]
    simp only [hfind]
    simp [hact]
  · intro hact u hu hst hv
    unfold login
    rw [if_neg hpw]
    simp only [hfind, hact]
    simp only [show ((none : Option Bool) == some false) = false from rfl,
      Bool.false_eq_true, if_false, hu]
    simp [hst, hv]

/-- Witness for C5: tenant `h9` with correct credentials is rejected when its
active flag is explicitly false, and accepted when the flag is null. -/
theorem C5_witness :
    (login inactiveDB loginH9 "ip" 0 eqVerify).result = .invalidCredentials ∧
    (∃ resp, (login nullActiveDB loginH9 "ip" 0 eqVerify).result =
      .success resp) := by
  constructor
  · exact (C5_inactive_hospital_blocks_login inactiveDB loginH9 "ip" 0
      eqVerify inactiveH9 (by decide) (by decide)).1 (by decide) |>.1
  · exact (C5_inactive_hospital_blocks_login nullActiveDB loginH9 "ip" 0
      eqVerify nullActiveH9 (by decide) (by decide)).2 (by decide)
      userOfH9 (by decide) (by decide) (by decide)

/-! ## C8 and C10: toggling a user's status -/

theorem toggle_find (db : DB) (cur : User) {u : User}
    (hnodup : (db.users.map User.id).Nodup) (hu : u ∈ db.users)
    (hhosp : u.hospital_id = cur.hospital_id) :
    db.users.find?
      (fun v => v.id == u.id && v.hospital_id == cur.hospital_id) = some u := by
  apply find?_eq_some_of_unique _ hu
  · simp [hhosp]
  · intro b hb hpb
    simp only [Bool.and_eq_true, beq_iff_eq] at hpb
    exact List.inj_on_of_nodup_map hnodup hb hu hpb.1

/-- **C8.** For every user belonging to the caller's hospital (in a
datastore whose user ids are unique, as the primary key guarantees),
applying `toggle_user_status` twice in succession returns the user's status
flag — indeed the whole datastore — to its original value. -/
theorem C8_toggle_twice_restores_status
    (db : DB) (cur : User) (uid : Nat) (u : User)
    (hnodup : (db.users.map User.id).Nodup)
    (hu : u ∈ db.users) (hid : u.id = uid)
    (hhosp : u.hospital_id = cur.hospital_id) :
    (toggle_user_status (toggle_user_status db uid cur).db uid cur).result
      = .ok u ∧
    (toggle_user_status (toggle_user_status db uid cur).db uid cur).db
      = db := by
  subst hid
  have hinj : ∀ b ∈ db.users, b.id = u.id → b = u := fun b hb h =>
    List.inj_on_of_nodup_map hnodup hb hu h
  have hf1 := toggle_find db cur hnodup hu hhosp
  have h1 : toggle_user_status db u.id cur = { result := .ok { u with status := !u.status }, db := { db with users := db.users.map (fun v => if v.id == u.id then { u with status := !u.status } else v) } } := by
    unfold toggle_user_status
    simp only [hf1]
  rw [h1]
  have hfid : ∀ v : User, ((if v.id == u.id then { u with status := !u.status } else v) : User).id = v.id := by
    intro v
    by_cases hvu : (v.id == u.id) = true
    · simp only [if_pos hvu]
      exact (beq_iff_eq.mp hvu).symm
    · simp only [if_neg hvu]
  have hmapid : (db.users.map (fun v => if v.id == u.id then { u with status := !u.status } else v)).map User.id = db.users.map User.id := by
    rw [List.map_map]
    exact List.map_congr_left (fun v _ => hfid v)
  have hnodup2 : ((db.users.map (fun v => if v.id == u.id then { u with status := !u.status } else v)).map User.id).Nodup := by
    rw [hmapid]; exact hnodup
  have hu'mem : ({ u with status := !u.status } : User) ∈ db.users.map (fun v => if v.id == u.id then { u with status := !u.status } else v) := by
    refine List.mem_map.mpr ⟨u, hu, ?_⟩
    simp
  have hf2 : (db.users.map (fun v => if v.id == u.id then { u with status := !u.status } else v)).find? (fun v => v.id == u.id && v.hospital_id == cur.hospital_id) = some { u with status := !u.status } := by
    apply find?_eq_some_of_unique _ hu'mem
    · simp [hhosp]
    · intro b hb hpb
      simp only [Bool.and_eq_true, beq_iff_eq] at hpb
      have : b.id = ({ u with status := !u.status } : User).id := hpb.1
      exact List.inj_on_of_nodup_map hnodup2 hb hu'mem this
  have h2 : toggle_user_status { db with users := db.users.map (fun v => if v.id == u.id then { u with status := !u.status } else v) } u.id cur = { result := .ok u, db := { db with users := (db.users.map (fun v => if v.id == u.id then { u with status := !u.status } else v)).map (fun v => if v.id == u.id then u else v) } } := by
    unfold toggle_user_status
    dsimp only
    simp only [hf2]
    have huu : ({ u with status := !({ u with status := !u.status } : User).status } : User) = u := by
      cases u
      simp [Bool.not_not]
    rw [huu]
  rw [h2]
  refine ⟨rfl, ?_⟩
  have husers : (db.users.map (fun v => if v.id == u.id then { u with status := !u.status } else v)).map (fun v => if v.id == u.id then u else v) = db.users := by
    rw [List.map_map]
    apply map_members_id
    intro v hv
    simp only [Function.comp_apply]
    by_cases hvu : (v.id == u.id) = true
    · have hveq : v = u := hinj v hv (beq_iff_eq.mp hvu)
      simp only [if_pos hvu]
      simp only [beq_self_eq_true, if_pos]
      exact hveq.symm
    · simp only [if_neg hvu]
  rw [husers]

/-- Witness for C8: toggling user 2 of hospital 1 twice by an admin of
hospital 1 returns the row and the datastore to the original state. -/
theorem C8_witness :
    (toggle_user_status (toggle_user_status sameTenantDB 2 adminH1).db
      2 adminH1).result = .ok staffH1 ∧
    (toggle_user_status (toggle_user_status sameTenantDB 2 adminH1).db
      2 adminH1).db = sameTenantDB := by
  exact C8_toggle_twice_restores_status sameTenantDB adminH1 2 staffH1
    (by decide) (by decide) (by decide) (by decide)

/-- **C10.** A successful `toggle_user_status` call changes only the status
field of the targeted user: the result row is the target with only its
status flipped, the users table is pointwise unchanged except that the row
with the target id has its status negated (id, hospital, username, email,
password hash, role, full name and last-login intact), and the hospitals
table, the audit log and the id sequences are untouched. -/
theorem C10_toggle_changes_only_target_status
    (db : DB) (cur : User) (uid : Nat) (u : User)
    (hnodup : (db.users.map User.id).Nodup)
    (hu : u ∈ db.users) (hid : u.id = uid)
    (hhosp : u.hospital_id = cur.hospital_id) :
    (toggle_user_status db uid cur).result = .ok { u with status := !u.status } ∧
    (toggle_user_status db uid cur).db.users = db.users.map (fun v => if v.id == uid then { v with status := !v.status } else v) ∧
    (toggle_user_status db uid cur).db.hospitals = db.hospitals ∧
    (toggle_user_status db uid cur).db.auditLogs = db.auditLogs ∧
    (toggle_user_status db uid cur).db.nextHospitalId = db.nextHospitalId ∧
    (toggle_user_status db uid cur).db.nextUserId = db.nextUserId := by
  subst hid
  have hinj : ∀ b ∈ db.users, b.id = u.id → b = u := fun b hb h =>
    List.inj_on_of_nodup_map hnodup hb hu h
  have hf1 := toggle_find db cur hnodup hu hhosp
  have h1 : toggle_user_status db u.id cur = { result := .ok { u with status := !u.status }, db := { db with users := db.users.map (fun v => if v.id == u.id then { u with status := !u.status } else v) } } := by
    unfold toggle_user_status
    simp only [hf1]
  rw [h1]
  refine ⟨rfl, ?_, rfl, rfl, rfl, rfl⟩
  apply List.map_congr_left
  intro v hv
  by_cases hvu : (v.id == u.id) = true
  · have hveq : v = u := hinj v hv (beq_iff_eq.mp hvu)
    simp only [if_pos hvu]
    rw [hveq]
  · simp only [if_neg hvu]

/-- Witness for C10: toggling user 2 of hospital 1 flips only that row's
status and leaves every other table untouched. -/
theorem C10_witness :
    (toggle_user_status sameTenantDB 2 adminH1).result =
      .ok { staffH1 with status := false } ∧
    (toggle_user_status sameTenantDB 2 adminH1).db.auditLogs =
      sameTenantDB.auditLogs := by
  have h := C10_toggle_changes_only_target_status sameTenantDB adminH1 2
    staffH1 (by decide) (by decide) (by decide) (by decide)
  exact ⟨h.1, h.2.2.2.1⟩

/-! ## Registration lemmas shared by C6, C7, C9 and C3 -/

theorem register_ok_eq
    (db : DB) (p : HospitalCreate) (secret : String) (hash : String → String)
    (hsec : p.register_secret = secret)
    (hpw : ¬ p.admin_password.utf8ByteSize > 72)
    (hdup : db.hospitals.find? (fun h => strLower h.hospital_id == strLower (strTrim p.hospital_id)) = none) :
    register_hospital db p secret hash .ok = { result := .created ("Hospital " ++ strTrim p.hospital_id ++ " registered successfully") (strTrim p.hospital_id), db := { db with hospitals := db.hospitals ++ [regHospitalRow db p], users := db.users ++ [regAdminRow db p hash], nextHospitalId := db.nextHospitalId + 1, nextUserId := db.nextUserId + 1 } } := by
  unfold register_hospital regHospitalRow regAdminRow
  rw [hsec]
  simp only [bne_self_eq_false, Bool.false_eq_true, if_false, if_neg hpw,
    hdup, Option.isSome_none, ite_false]

theorem register_conflict_of_existing
    (db : DB) (p : HospitalCreate) (secret : String) (hash : String → String)
    (fate : RegisterFate)
    (hsec : p.register_secret = secret)
    (hpw : ¬ p.admin_password.utf8ByteSize > 72)
    (hex : ∃ x ∈ db.hospitals, strLower x.hospital_id = strLower (strTrim p.hospital_id)) :
    register_hospital db p secret hash fate = { result := .conflict, db := db } := by
  obtain ⟨x, hx, hxe⟩ := hex
  have hs : (db.hospitals.find? (fun h => strLower h.hospital_id == strLower (strTrim p.hospital_id))).isSome = true :=
    List.find?_isSome.mpr ⟨x, hx, beq_iff_eq.mpr hxe⟩
  unfold register_hospital
  rw [hsec]
  simp only [bne_self_eq_false, Bool.false_eq_true, if_false, if_neg hpw,
    hs, ite_true]

/-! ## C6: duplicate hospital registration yields Conflict -/

/-- **C6.** Registering a hospital whose external id matches an
already-registered hospital's id case-insensitively after trimming fails
with Conflict (409) and creates no new hospital or user rows; hence a valid
registration of a tenant id succeeds once, and a subsequent valid attempt on
the same id (same or differing case, any datastore fate) yields Conflict
with the datastore unchanged. -/
theorem C6_duplicate_hospital_registration_conflict
    (db : DB) (p1 p2 : HospitalCreate) (secret : String)
    (hash : String → String) (fate : RegisterFate)
    (hsec1 : p1.register_secret = secret)
    (hpw1 : ¬ p1.admin_password.utf8ByteSize > 72)
    (hdup1 : db.hospitals.find? (fun h => strLower h.hospital_id == strLower (strTrim p1.hospital_id)) = none)
    (hsec2 : p2.register_secret = secret)
    (hpw2 : ¬ p2.admin_password.utf8ByteSize > 72)
    (hmatch : strLower (strTrim p2.hospital_id) = strLower (strTrim p1.hospital_id)) :
    (register_hospital db p1 secret hash .ok).result = .created ("Hospital " ++ strTrim p1.hospital_id ++ " registered successfully") (strTrim p1.hospital_id) ∧
    (register_hospital (register_hospital db p1 secret hash .ok).db p2 secret hash fate).result = .conflict ∧
    (register_hospital (register_hospital db p1 secret hash .ok).db p2 secret hash fate).db = (register_hospital db p1 secret hash .ok).db := by
  have h1 := register_ok_eq db p1 secret hash hsec1 hpw1 hdup1
  rw [h1]
  refine ⟨rfl, ?_, ?_⟩
  · have h2 := register_conflict_of_existing
      { db with hospitals := db.hospitals ++ [regHospitalRow db p1], users := db.users ++ [regAdminRow db p1 hash], nextHospitalId := db.nextHospitalId + 1, nextUserId := db.nextUserId + 1 }
      p2 secret hash fate hsec2 hpw2
      ⟨regHospitalRow db p1, by simp [regHospitalRow], by rw [hmatch]; rfl⟩
    rw [h2]
  · have h2 := register_conflict_of_existing
      { db with hospitals := db.hospitals ++ [regHospitalRow db p1], users := db.users ++ [regAdminRow db p1 hash], nextHospitalId := db.nextHospitalId + 1, nextUserId := db.nextUserId + 1 }
      p2 secret hash fate hsec2 hpw2
      ⟨regHospitalRow db p1, by simp [regHospitalRow], by rw [hmatch]; rfl⟩
    rw [h2]

/-- Witness for C6: registering `"h1"` then `" H1"` — the first attempt is
created, the second Conflict with no new rows. -/
theorem C6_witness :
    (register_hospital emptyDB regH1 "s" idHash .ok).result = .created "Hospital h1 registered successfully" "h1" ∧
    (register_hospital (register_hospital emptyDB regH1 "s" idHash .ok).db regH1Upper "s" idHash .ok).result = .conflict ∧
    (register_hospital (register_hospital emptyDB regH1 "s" idHash .ok).db regH1Upper "s" idHash .ok).db = (register_hospital emptyDB regH1 "s" idHash .ok).db := by
  exact C6_duplicate_hospital_registration_conflict emptyDB regH1 regH1Upper
    "s" idHash .ok rfl (by decide) (by decide) rfl (by decide) (by decide)

/-! ## C9: the bootstrap admin's email equals the hospital's email -/

/-- **C9.** A successful `register_hospital` creates exactly one hospital row
and one admin user row, and the admin's email is exactly the hospital's
email: both are the trimmed, lowercased tenant-profile email, so the
bootstrap admin can never receive an email different from the hospital's. -/
theorem C9_bootstrap_admin_email_equals_hospital_email
    (db : DB) (p : HospitalCreate) (secret : String) (hash : String → String)
    (hsec : p.register_secret = secret)
    (hpw : ¬ p.admin_password.utf8ByteSize > 72)
    (hdup : db.hospitals.find? (fun h => strLower h.hospital_id == strLower (strTrim p.hospital_id)) = none) :
    ∃ h a, (register_hospital db p secret hash .ok).db.hospitals = db.hospitals ++ [h] ∧
      (register_hospital db p secret hash .ok).db.users = db.users ++ [a] ∧
      a.email = some h.email ∧
      h.email = strLower (strTrim p.email) ∧
      a.role = "admin" := by
  have h1 := register_ok_eq db p secret hash hsec hpw hdup
  rw [h1]
  exact ⟨regHospitalRow db p, regAdminRow db p hash, rfl, rfl, rfl, rfl, rfl⟩

/-- Witness for C9 on the concrete registration of `"h1"`: the admin's email
equals the hospital's normalized email. -/
theorem C9_witness :
    ∃ h a, (register_hospital emptyDB regH1 "s" idHash .ok).db.hospitals = emptyDB.hospitals ++ [h] ∧
      (register_hospital emptyDB regH1 "s" idHash .ok).db.users = emptyDB.users ++ [a] ∧
      a.email = some h.email ∧
      h.email = strLower (strTrim regH1.email) ∧
      a.role = "admin" := by
  exact C9_bootstrap_admin_email_equals_hospital_email emptyDB regH1 "s"
    idHash rfl (by decide) (by decide)

/-! ## C7: transactionality of hospital + admin creation -/

/-- Counterexample to **C7** as stated: when the post-commit `db.refresh`
raises (both refresh calls sit inside the `try` block after `await
db.commit()`), the handler reports the generic 500 server error, yet the
hospital and admin rows are already durably committed — so it is not true
that in every failure case the datastore is unchanged. -/
theorem C7_counterexample :
    (register_hospital emptyDB regH1 "s" idHash .refreshError).result = .serverError ∧
    (register_hospital emptyDB regH1 "s" idHash .refreshError).db.hospitals.length = 1 ∧
    (register_hospital emptyDB regH1 "s" idHash .refreshError).db ≠ emptyDB := by
  refine ⟨by decide, by decide, by decide⟩

/-- **C7 (amended).** `register_hospital` commits the Hospital row and the
admin User row as a single transaction: a uniqueness-constraint failure at
flush/commit is rolled back and reported Conflict (409) with the datastore
unchanged; any other unexpected failure at or before commit is rolled back
and reported as a generic 500 with the datastore unchanged; a failure of the
post-commit re-read (refresh) is reported as a 500 although both rows were
already committed; and in every case either no row or both rows are added,
so a hospital without its admin user is never observable. -/
theorem C7_registration_transactionality
    (db : DB) (p : HospitalCreate) (secret : String) (hash : String → String)
    (hsec : p.register_secret = secret)
    (hpw : ¬ p.admin_password.utf8ByteSize > 72)
    (hdup : db.hospitals.find? (fun h => strLower h.hospital_id == strLower (strTrim p.hospital_id)) = none) :
    ((register_hospital db p secret hash .integrityError).result = .conflict ∧
     (register_hospital db p secret hash .integrityError).db = db) ∧
    ((register_hospital db p secret hash .commitError).result = .serverError ∧
     (register_hospital db p secret hash .commitError).db = db) ∧
    ((register_hospital db p secret hash .refreshError).result = .serverError) ∧
    (∀ (db' : DB) (p' : HospitalCreate) (fate : RegisterFate),
      (register_hospital db' p' secret hash fate).db = db' ∨
      ∃ h a, (register_hospital db' p' secret hash fate).db.hospitals = db'.hospitals ++ [h] ∧
        (register_hospital db' p' secret hash fate).db.users = db'.users ++ [a] ∧
        a.hospital_id = h.id ∧ a.role = "admin") := by
  refine ⟨?_, ?_, ?_, ?_⟩
  · unfold register_hospital
    rw [hsec]
    simp only [bne_self_eq_false, Bool.false_eq_true, if_false,
      if_neg hpw, hdup, Option.isSome_none, ite_false]
    exact ⟨trivial, trivial⟩
  · unfold register_hospital
    rw [hsec]
    simp only [bne_self_eq_false, Bool.false_eq_true, if_false,
      if_neg hpw, hdup, Option.isSome_none, ite_false]
    exact ⟨trivial, trivial⟩
  · unfold register_hospital
    rw [hsec]
    simp only [bne_self_eq_false, Bool.false_eq_true, if_false,
      if_neg hpw, hdup, Option.isSome_none, ite_false]
  · intro db' p' fate
    unfold register_hospital
    by_cases hs : (p'.register_secret != secret) = true
    · simp only [hs, if_true]
      exact Or.inl trivial
    · simp only [hs, Bool.false_eq_true, if_false]
      by_cases hp : p'.admin_password.utf8ByteSize > 72
      · simp only [if_pos hp]
        exact Or.inl trivial
      · simp only [if_neg hp]
        by_cases hd : (db'.hospitals.find? (fun h => strLower h.hospital_id == strLower (strTrim p'.hospital_id))).isSome = true
        · simp only [hd, if_true]
          exact Or.inl trivial
        · simp only [hd, Bool.false_eq_true, if_false]
          cases fate with
          | integrityError => exact Or.inl rfl
          | commitError => exact Or.inl rfl
          | refreshError => exact Or.inr ⟨_, _, rfl, rfl, rfl, rfl⟩
          | ok => exact Or.inr ⟨_, _, rfl, rfl, rfl, rfl⟩

/-- Witness for C7 (amended) on the concrete registration of `"h1"`:
an integrity error at commit is reported Conflict with the datastore
unchanged. -/
theorem C7_witness :
    (register_hospital emptyDB regH1 "s" idHash .integrityError).result = .conflict ∧
    (register_hospital emptyDB regH1 "s" idHash .integrityError).db = emptyDB := by
  exact (C7_registration_transactionality emptyDB regH1 "s" idHash rfl
    (by decide) (by decide)).1

/-! ## C3: normalization symmetry between registration and login -/

/-- **C3.** For every hospital registered with external id `p.hospital_id`
and admin username `p.admin_username`, a subsequent login succeeds whenever
the supplied hospital id equals the registered one up to leading/trailing
whitespace and letter case, and the supplied username equals the admin's up
to leading/trailing whitespace and letter case, given the correct password
(`hfresh` states that the id sequence is fresh, as the database guarantees;
`hver` states that the verifier accepts the hash the registration stored). -/
theorem C3_normalization_symmetry
    (db : DB) (p : HospitalCreate) (secret hid2 uname2 clientIp : String)
    (now : Nat) (hash : String → String) (verify : String → String → Bool)
    (hsec : p.register_secret = secret)
    (hpw : ¬ p.admin_password.utf8ByteSize > 72)
    (hdup : db.hospitals.find? (fun h => strLower h.hospital_id == strLower (strTrim p.hospital_id)) = none)
    (hfresh : ∀ u ∈ db.users, u.hospital_id ≠ db.nextHospitalId)
    (hhid : strLower (strTrim hid2) = strLower (strTrim p.hospital_id))
    (huname : strLower (strTrim uname2) = strLower (strTrim p.admin_username))
    (hver : verify p.admin_password (hash p.admin_password) = true) :
    ∃ resp, (login (register_hospital db p secret hash .ok).db { hospital_id := hid2, username := uname2, password := p.admin_password } clientIp now verify).result = .success resp ∧ resp.role = "admin" := by
  rw [register_ok_eq db p secret hash hsec hpw hdup]
  unfold login
  dsimp only
  rw [if_neg hpw]
  rw [hhid, huname]
  have hfa : ((db.hospitals ++ [regHospitalRow db p]).find? (fun h => strLower h.hospital_id == strLower (strTrim p.hospital_id))) = some (regHospitalRow db p) := by
    rw [find?_append_of_none _ _ hdup]
    simp [List.find?, regHospitalRow]
  rw [hfa]
  dsimp only
  have hact : ((regHospitalRow db p).is_active == some false) = false := rfl
  rw [hact]
  simp only [Bool.false_eq_true, if_false]
  have hnone : db.users.find? (fun u => strLower u.username == strLower (strTrim p.admin_username) && u.hospital_id == (regHospitalRow db p).id) = none := by
    rw [List.find?_eq_none]
    intro u hu
    simp only [Bool.and_eq_true, beq_iff_eq, not_and]
    exact fun _ h => hfresh u hu h
  have hfu : ((db.users ++ [regAdminRow db p hash]).find? (fun u => strLower u.username == strLower (strTrim p.admin_username) && u.hospital_id == (regHospitalRow db p).id)) = some (regAdminRow db p hash) := by
    rw [find?_append_of_none _ _ hnone]
    simp [List.find?, regAdminRow, regHospitalRow, strLower_idem]
  rw [hfu]
  dsimp only
  have hst : ((regAdminRow db p hash).status = false) = False := by
    simp [regAdminRow]
  rw [if_neg (by simp [regAdminRow])]
  have hvv : (verify p.admin_password (regAdminRow db p hash).password_hash = false) = False := by
    simp only [regAdminRow]
    simp [hver]
  rw [if_neg (by simp only [regAdminRow]; simp [hver])]
  exact ⟨_, rfl, rfl⟩

/-- Witness for C3: after registering hospital `"h1"` with admin `"admin"`,
logging in with tenant `"H1 "` (trailing space) and username `"Admin"`
succeeds. -/
theorem C3_witness :
    ∃ resp, (login (register_hospital emptyDB regH1 "s" idHash .ok).db loginH1Scenario "ip" 0 eqVerify).result = .success resp ∧ resp.role = "admin" := by
  exact C3_normalization_symmetry emptyDB regH1 "s" "H1 " "Admin" "ip" 0
    idHash eqVerify rfl (by decide) (by decide) (by decide) (by decide)
    (by decide) (by decide)

/-! ## C1: audit rows written per login attempt -/

/-- Counterexample to **C1** as stated: a login attempt against an absent
hospital (a step-3 failure) returns the generic 401 *without* writing any
AuditLog row — the handler raises before the audit insert, which only exists
on the user-verification path — so it is not true that every failing attempt
from steps 3–5 commits a LOGIN_FAILED entry, nor that exactly one audit row
is written per attempt. -/
theorem C1_counterexample :
    (login emptyDB loginH1 "ip" 0 eqVerify).result = .invalidCredentials ∧
    (login emptyDB loginH1 "ip" 0 eqVerify).db.auditLogs.length = 0 := by
  exact ⟨by decide, by decide⟩


/-- **C1 (amended).** Input-keyed audit behaviour of one login attempt:
(a) an oversized password is rejected with 401 and no audit row;
(b) a hospital-absent attempt returns 401 with no audit row;
(c) a hospital-explicitly-inactive attempt returns 401 with no audit row;
(d) an attempt that reaches the user-verification stage and fails there
(user absent, user inactive, or wrong password) returns 401 after committing
exactly one LOGIN_FAILED entry carrying the normalized username, tenant id
and client IP;
(e) a successful attempt commits exactly one LOGIN_SUCCESS entry. -/
theorem C1_audit_rows_characterization
    (db : DB) (payload : LoginRequest) (clientIp : String) (now : Nat)
    (verify : String → String → Bool) :
    (payload.password.utf8ByteSize > 72 →
      (login db payload clientIp now verify).result = .invalidCredentials ∧
      (login db payload clientIp now verify).db.auditLogs = db.auditLogs) ∧
    (¬ payload.password.utf8ByteSize > 72 →
      db.hospitals.find? (fun x => strLower x.hospital_id == strLower (strTrim payload.hospital_id)) = none →
      (login db payload clientIp now verify).result = .invalidCredentials ∧
      (login db payload clientIp now verify).db.auditLogs = db.auditLogs) ∧
    (∀ h, ¬ payload.password.utf8ByteSize > 72 →
      db.hospitals.find? (fun x => strLower x.hospital_id == strLower (strTrim payload.hospital_id)) = some h →
      h.is_active = some false →
      (login db payload clientIp now verify).result = .invalidCredentials ∧
      (login db payload clientIp now verify).db.auditLogs = db.auditLogs) ∧
    (∀ h, ¬ payload.password.utf8ByteSize > 72 →
      db.hospitals.find? (fun x => strLower x.hospital_id == strLower (strTrim payload.hospital_id)) = some h →
      h.is_active ≠ some false →
      (db.users.find? (fun u => strLower u.username == strLower (strTrim payload.username) && u.hospital_id == h.id) = none ∨
       (∃ u, db.users.find? (fun u => strLower u.username == strLower (strTrim payload.username) && u.hospital_id == h.id) = some u ∧
         (u.status = false ∨ verify payload.password u.password_hash = false))) →
      (login db payload clientIp now verify).result = .invalidCredentials ∧
      (login db payload clientIp now verify).db.auditLogs = db.auditLogs ++ [loginFailedLog payload clientIp]) ∧
    (∀ h u, ¬ payload.password.utf8ByteSize > 72 →
      db.hospitals.find? (fun x => strLower x.hospital_id == strLower (strTrim payload.hospital_id)) = some h →
      h.is_active ≠ some false →
      db.users.find? (fun v => strLower v.username == strLower (strTrim payload.username) && v.hospital_id == h.id) = some u →
      u.status = true →
      verify payload.password u.password_hash = true →
      (∃ resp, (login db payload clientIp now verify).result = .success resp) ∧
      (login db payload clientIp now verify).db.auditLogs = db.auditLogs ++ [loginSuccessLog u.id clientIp]) := by
  refine ⟨?_, ?_, ?_, ?_, ?_⟩
  · intro hpw
    unfold login
    rw [if_pos hpw]
    exact ⟨rfl, rfl⟩
  · intro hpw hfind
    unfold login
    rw [if_neg hpw, hfind]
    exact ⟨rfl, rfl⟩
  · intro h hpw hfind hact
    unfold login
    rw [if_neg hpw, hfind]
    dsimp only
    rw [if_pos (beq_iff_eq.mpr hact)]
    exact ⟨rfl, rfl⟩
  · intro h hpw hfind hact hfail
    have hact' : ¬ ((h.is_active == some false) = true) :=
      fun hb => hact (beq_iff_eq.mp hb)
    rcases hfail with hfu | ⟨u, hfu, hbad⟩
    · unfold login
      rw [if_neg hpw, hfind]
      dsimp only
      rw [if_neg hact', hfu]
      exact ⟨rfl, rfl⟩
    · by_cases hst : u.status = false
      · unfold login
        rw [if_neg hpw, hfind]
        dsimp only
        rw [if_neg hact', hfu]
        dsimp only
        rw [if_pos hst]
        exact ⟨rfl, rfl⟩
      · have hv : verify payload.password u.password_hash = false := by
          rcases hbad with hb | hb
          · exact absurd hb hst
          · exact hb
        unfold login
        rw [if_neg hpw, hfind]
        dsimp only
        rw [if_neg hact', hfu]
        dsimp only
        rw [if_neg hst, if_pos hv]
        exact ⟨rfl, rfl⟩
  · intro h u hpw hfind hact hfu hst hv
    have hact' : ¬ ((h.is_active == some false) = true) :=
      fun hb => hact (beq_iff_eq.mp hb)
    have hst' : ¬ (u.status = false) := by
      simp [hst]
    have hv' : ¬ (verify payload.password u.password_hash = false) := by
      simp [hv]
    unfold login
    rw [if_neg hpw, hfind]
    dsimp only
    rw [if_neg hact', hfu]
    dsimp only
    rw [if_neg hst', if_neg hv']
    exact ⟨⟨_, rfl⟩, rfl⟩

/-- Witness for C1 (amended), touching three clauses at concrete inputs: a
hospital-absent attempt leaves the audit log empty; a wrong-password attempt
against the null-active tenant `h9` appends exactly one LOGIN_FAILED row; a
correct login there appends exactly one LOGIN_SUCCESS row. -/
theorem C1_witness :
    ((login emptyDB loginH1 "ip" 0 eqVerify).result = .invalidCredentials ∧
     (login emptyDB loginH1 "ip" 0 eqVerify).db.auditLogs = emptyDB.auditLogs) ∧
    ((login nullActiveDB loginH9Wrong "ip" 0 eqVerify).result = .invalidCredentials ∧
     (login nullActiveDB loginH9Wrong "ip" 0 eqVerify).db.auditLogs = nullActiveDB.auditLogs ++ [loginFailedLog loginH9Wrong "ip"]) ∧
    ((∃ resp, (login nullActiveDB loginH9 "ip" 0 eqVerify).result = .success resp) ∧
     (login nullActiveDB loginH9 "ip" 0 eqVerify).db.auditLogs = nullActiveDB.auditLogs ++ [loginSuccessLog userOfH9.id "ip"]) := by
  refine ⟨?_, ?_, ?_⟩
  · exact (C1_audit_rows_characterization emptyDB loginH1 "ip" 0
      eqVerify).2.1 (by decide) (by decide)
  · exact (C1_audit_rows_characterization nullActiveDB loginH9Wrong "ip" 0
      eqVerify).2.2.2.1 nullActiveH9 (by decide) (by decide) (by decide)
      (Or.inr ⟨userOfH9, by decide, Or.inr (by decide)⟩)
  · exact (C1_audit_rows_characterization nullActiveDB loginH9 "ip" 0
      eqVerify).2.2.2.2 nullActiveH9 userOfH9 (by decide) (by decide)
      (by decide) (by decide) (by decide) (by decide)
